import Mathlib

/-
  Verification of the Billing & Invoice Generation Engine of the hospital
  back-office API (a Node.js/Express/Mongoose code base).

  Shallow embedding conventions:
  * JS numbers used for money are modelled as exact rationals (ℚ); the one
    claim that is about binary64 rounding gets a dedicated dyadic model of
    IEEE-754 double-precision arithmetic further below.
  * Mongo object ids are modelled as ℕ, timestamps as ℤ.
  * JS `undefined` / absent request fields are modelled with Option.
  * The Mongo collections behind the controllers are modelled as lists held
    in a `Store` structure; each controller is a function from the store and
    the request to a result and the new store.
  * A mongoose `save()` first runs schema validation (the field constraints
    declared in src/models/Invoice.js) and then the pre-save hook, which is
    how mongoose orders them.
-/

namespace Billing

/-- Payment status enum of src/models/Invoice.js: 'paid' | 'partial' | 'unpaid'.
The source value 'partial' is rendered here as `partPaid` (the literal word is
a reserved token in Lean). -/
inductive PaymentStatus where
  | unpaid
  | partPaid
  | paid
deriving DecidableEq, Repr

/-- customerType enum of src/models/Invoice.js: 'registered' | 'walk-in'. -/
inductive CustomerType where
  | registered
  | walkIn
deriving DecidableEq, Repr

/-- invoiceType enum of src/models/Invoice.js:
'consultation' | 'laboratory' | 'pharmacy'. -/
inductive InvoiceType where
  | consultation
  | laboratory
  | pharmacy
deriving DecidableEq, Repr

/-- One stored line item (invoiceItemSchema of src/models/Invoice.js). -/
structure InvoiceItem where
  description : String := ""
  quantity : ℚ := 1
  unitPrice : ℚ := 0
  amount : ℚ := 0
  hsn : String := ""
  gstRate : ℚ := 0
deriving DecidableEq, Repr

/-- A line item as supplied in a request body before processing by
`calculateTotals` (billingController.js, createInvoice): the caller may or
may not supply `amount`. -/
structure ReqItem where
  description : String := ""
  quantity : ℚ := 1
  unitPrice : ℚ := 0
  amount : Option ℚ := none
  hsn : String := ""
  gstRate : ℚ := 0
deriving DecidableEq, Repr

/-- The persisted invoice document (invoiceSchema of src/models/Invoice.js).
`id` stands for the Mongo `_id`.  The schema default of `balanceDue`
(totalAmount - paidAmount) cannot be a dependent default here; every code
path below sets it explicitly, as the controllers and the pre-save hook do. -/
structure Invoice where
  id : ℕ := 0
  invoiceNumber : String := ""
  invoiceDate : ℤ := 0
  dueDate : Option ℤ := none
  customerType : CustomerType := .registered
  patient : Option ℕ := none
  walkInName : Option String := none
  doctor : Option ℕ := none
  appointment : Option ℕ := none
  prescription : Option ℕ := none
  labTest : Option ℕ := none
  invoiceType : InvoiceType := .consultation
  items : List InvoiceItem := []
  subtotal : ℚ := 0
  gstNumber : String := ""
  gstPercentage : ℚ := 0
  gstAmount : ℚ := 0
  totalAmount : ℚ := 0
  paidAmount : ℚ := 0
  balanceDue : ℚ := 0
  paymentMethod : String := "Cash"
  paymentStatus : PaymentStatus := .unpaid
  notes : Option String := none
  paymentDate : Option ℤ := none
  createdBy : ℕ := 0
  hospital : ℕ := 0
deriving DecidableEq, Repr

/-- Schema validation of src/models/Invoice.js, run by mongoose before the
pre-save hook: required string fields must be nonempty, quantity >= 1,
unitPrice >= 0, subtotal >= 0, totalAmount >= 0, paidAmount >= 0, and the
conditionally required customer fields. -/
def schemaValid (i : Invoice) : Bool :=
  i.invoiceNumber ≠ "" &&
  i.items.all (fun it =>
    it.description ≠ "" && decide (1 ≤ it.quantity) && decide (0 ≤ it.unitPrice)) &&
  decide (0 ≤ i.subtotal) &&
  decide (0 ≤ i.totalAmount) &&
  decide (0 ≤ i.paidAmount) &&
  (i.customerType = .registered → i.patient ≠ none : Bool) &&
  (i.customerType = .walkIn → i.walkInName ≠ none : Bool)

/-- The pre-save hook of src/models/Invoice.js (lines 171-186): recompute
`balanceDue`, derive `paymentStatus` from paidAmount vs totalAmount, and in
the paid branch set `paymentDate` to now when it is not already set. -/
def preSave (now : ℤ) (i : Invoice) : Invoice :=
  let i := { i with balanceDue := i.totalAmount - i.paidAmount }
  if i.paidAmount ≤ 0 then
    { i with paymentStatus := .unpaid }
  else if i.paidAmount < i.totalAmount then
    { i with paymentStatus := .partPaid }
  else
    { i with paymentStatus := .paid,
             paymentDate := some (i.paymentDate.getD now) }

/-- `save()` on an invoice document: schema validation, then the pre-save
hook; a validation failure persists nothing. -/
def saveInvoice (now : ℤ) (i : Invoice) : Option Invoice :=
  if schemaValid i then some (preSave now i) else none

/-- String.prototype.padStart(n, c). -/
def padStart (s : String) (n : ℕ) (c : Char) : String :=
  String.mk (List.replicate (n - s.length) c) ++ s

/-- String.prototype.slice(-2): the last (at most) two characters. -/
def lastTwo (s : String) : String :=
  s.drop (s.length - 2)

/-- A calendar date as the JS code reads it off `new Date()`: `year` is the
full year (getFullYear) and `month` the 1-based month (getMonth() + 1). -/
structure MDate where
  year : ℕ := 2025
  month : ℕ := 1
deriving DecidableEq, Repr

/-- invoiceSchema.statics.generateInvoiceNumber (src/models/Invoice.js,
lines 189-197): count the invoices of the hospital, and format
PREFIX-YYMM-NNNN from the current date and that count plus one. -/
def generateInvoiceNumber (pfx : String) (hospitalId : ℕ)
    (invoices : List Invoice) (now : MDate) : String :=
  let count := (invoices.filter (fun i => i.hospital = hospitalId)).length
  let currentYear := lastTwo (Nat.repr now.year)
  let currentMonth := padStart (Nat.repr now.month) 2 '0'
  pfx ++ "-" ++ currentYear ++ currentMonth ++ "-" ++
    padStart (Nat.repr (count + 1)) 4 '0'

/-- JS truthiness-based defaulting `x || y` for an optional number `x`:
an absent value and the number 0 are both falsy. (NaN, the remaining falsy
number, does not arise in the exact-arithmetic model.) -/
def jsOr (a : Option ℚ) (b : ℚ) : ℚ :=
  match a with
  | none => b
  | some x => if x = 0 then b else x

/-- Result of `calculateTotals` (billingController.js, lines 263-280). -/
structure Totals where
  processedItems : List InvoiceItem
  subtotal : ℚ
  gstAmount : ℚ
  totalAmount : ℚ
deriving DecidableEq, Repr

/-- calculateTotals (billingController.js, lines 263-280): default each
item amount to quantity * unitPrice via `||`, sum the amounts with reduce,
take gst as a percentage of the subtotal, and add. -/
def calculateTotals (items : List ReqItem) (gstPercentage : ℚ) : Totals :=
  let processedItems : List InvoiceItem := items.map (fun it =>
    { description := it.description
      quantity := it.quantity
      unitPrice := it.unitPrice
      amount := jsOr it.amount (it.quantity * it.unitPrice)
      hsn := it.hsn
      gstRate := it.gstRate })
  let subtotal := processedItems.foldl (fun sum it => sum + it.amount) 0
  let gstAmount := (subtotal * gstPercentage) / 100
  let totalAmount := subtotal + gstAmount
  { processedItems := processedItems
    subtotal := subtotal
    gstAmount := gstAmount
    totalAmount := totalAmount }

/-- Consultation fee tiers of src/models/BillingSettings.js with their
schema defaults. -/
structure ConsultationFees where
  standard : ℚ := 500
  followUp : ℚ := 300
  specialist : ℚ := 1000
  emergency : ℚ := 1500
deriving DecidableEq, Repr

/-- Per-tenant billing settings (src/models/BillingSettings.js) with the
schema defaults. -/
structure BillingSettings where
  hospital : ℕ
  consultationFees : ConsultationFees := {}
  gstNumber : String := "29AADCB2230M1ZP"
  gstPercentage : ℚ := 18
  currency : String := "INR"
  paymentMethods : List String := ["Cash"]
  invoicePrefix : String := "INV"
  termsAndConditions : String := ""
  updatedBy : Option ℕ := none
deriving DecidableEq, Repr

/-- A doctor document, as far as the billing controllers read it. -/
structure Doctor where
  id : ℕ := 0
  firstName : String := ""
  lastName : String := ""
  specialization : String := ""
deriving DecidableEq, Repr

/-- An appointment document, as far as generateConsultationInvoice reads
it. -/
structure Appointment where
  id : ℕ := 0
  patient : ℕ := 0
  doctor : ℕ := 0
  appointmentType : Option String := none
  appointmentDate : ℤ := 0
  appointmentTime : String := ""
deriving DecidableEq, Repr

/-- The persistent collections the billing controllers touch.  Patients and
hospitals are only ever existence-checked, so they are kept as id lists.
`nextId` supplies the Mongo `_id` of the next inserted invoice. -/
structure Store where
  invoices : List Invoice := []
  settings : List BillingSettings := []
  patients : List ℕ := []
  doctors : List Doctor := []
  hospitals : List ℕ := []
  appointments : List Appointment := []
  nextId : ℕ := 0
deriving DecidableEq, Repr

/-- The authenticated request context (req.user). -/
structure UserCtx where
  hospitalId : ℕ := 0
  userId : ℕ := 0
deriving DecidableEq, Repr

/-- The clock as the controllers read it: `epoch` for `new Date()` used as
a timestamp, and the calendar date used by generateInvoiceNumber. -/
structure JsDate where
  epoch : ℤ := 0
  date : MDate := {}
deriving DecidableEq, Repr

/-- `BillingSettings.findOne({hospital}) || BillingSettings.create(...)`:
find the tenant settings, lazily creating a default record (the repeated
resolve-or-create expression of billingController.js). -/
def resolveSettings (store : Store) (hospitalId userId : ℕ) :
    BillingSettings × Store :=
  match store.settings.find? (fun s => s.hospital = hospitalId) with
  | some s => (s, store)
  | none =>
      let s : BillingSettings := { hospital := hospitalId, updatedBy := some userId }
      (s, { store with settings := store.settings ++ [s] })

/-- Request body of POST /billing/invoices (createInvoice). -/
structure CreateBody where
  patientId : Option ℕ := none
  doctorId : Option ℕ := none
  appointmentId : Option ℕ := none
  prescriptionId : Option ℕ := none
  labTestId : Option ℕ := none
  invoiceType : Option InvoiceType := none
  items : List ReqItem := []
  notes : Option String := none
  paymentMethod : Option String := none
  paidAmount : Option ℚ := none
  dueDate : Option ℤ := none
deriving DecidableEq, Repr

/-- Outcome of createInvoice: 400 AppError, 404 AppError, a mongoose
save-time validation failure, or the 201 creation response carrying the
invoice. -/
inductive CreateResult where
  | badRequest (msg : String)
  | notFound (msg : String)
  | saveError
  | created (inv : Invoice)
deriving DecidableEq, Repr

/-- The `invoice.save()` tail of createInvoice (billingController.js,
lines 320-331): a successful save commits the hook-processed invoice to
the collection, a validation failure commits nothing. -/
def commitInvoice (now : ℤ) (inv : Invoice) (store1 : Store) :
    CreateResult × Store :=
  match saveInvoice now inv with
  | some fin =>
      (.created fin,
       { store1 with invoices := store1.invoices ++ [fin],
                     nextId := store1.nextId + 1 })
  | none => (.saveError, store1)

/-- The invoice document createInvoice builds before calling save
(billingController.js, lines 256-318): invoice number from the settings
prefix, totals from calculateTotals, `paidAmt = parseFloat(paidAmount) ||
0`, creation-time payment status `paidAmt === 0 ? unpaid : paidAmt <
total ? partial : paid`, and paymentDate set to now only when that status
is paid. -/
def buildInvoice (store1 : Store) (bs : BillingSettings) (user : UserCtx)
    (body : CreateBody) (patientId : ℕ) (invoiceType : InvoiceType)
    (now : JsDate) : Invoice :=
  let invoiceNumber :=
    generateInvoiceNumber ( BillingSettings.invoicePrefix bs)
      user.hospitalId store1.invoices now.date
  let totals := calculateTotals body.items bs.gstPercentage
  let paidAmt := body.paidAmount.getD 0
  let balanceDue := totals.totalAmount - paidAmt
  let paymentStatus : PaymentStatus :=
    if paidAmt = 0 then .unpaid
    else if paidAmt < totals.totalAmount then .partPaid
    else .paid
  { id := store1.nextId
    invoiceNumber := invoiceNumber
    invoiceDate := now.epoch
    dueDate := body.dueDate
    patient := some patientId
    doctor := body.doctorId
    appointment := body.appointmentId
    prescription := body.prescriptionId
    labTest := body.labTestId
    invoiceType := invoiceType
    items := totals.processedItems
    subtotal := totals.subtotal
    gstNumber := bs.gstNumber
    gstPercentage := bs.gstPercentage
    gstAmount := totals.gstAmount
    totalAmount := totals.totalAmount
    paidAmount := paidAmt
    balanceDue := balanceDue
    paymentMethod := body.paymentMethod.getD "Cash"
    paymentStatus := paymentStatus
    notes := body.notes
    paymentDate := if paymentStatus = .paid then some now.epoch else none
    createdBy := user.userId
    hospital := user.hospitalId }

/-- createInvoice (billingController.js, lines 207-331): field presence
check, patient / doctor / hospital lookups, settings resolution, invoice
construction, and the final `invoice.save()`. -/
def createInvoice (store : Store) (user : UserCtx) (body : CreateBody)
    (now : JsDate) : CreateResult × Store :=
  match body.patientId with
  | none => (.badRequest "Missing required fields", store)
  | some patientId =>
    match body.invoiceType with
    | none => (.badRequest "Missing required fields", store)
    | some invoiceType =>
    if body.items = [] then (.badRequest "Missing required fields", store)
    else if ¬ store.patients.contains patientId then
      (.notFound "Patient not found", store)
    else if body.doctorId.elim false
        (fun d => (store.doctors.find? (fun doc => doc.id = d)).isNone) = true then
      (.notFound "Doctor not found", store)
    else if ¬ store.hospitals.contains user.hospitalId then
      (.notFound "Hospital not found", store)
    else
      let resolved := resolveSettings store user.hospitalId user.userId
      commitInvoice now.epoch
        (buildInvoice resolved.2 resolved.1 user body patientId invoiceType now)
        resolved.2

/-- Request body of PUT /billing/invoices/:id/payment. -/
structure PaymentBody where
  paidAmount : Option ℚ := none
  paymentMethod : Option String := none
  paymentDate : Option ℤ := none
deriving DecidableEq, Repr

/-- Outcome of updateInvoicePayment. -/
inductive UpdateResult where
  | notFound
  | saveError
  | ok (inv : Invoice)
deriving DecidableEq, Repr

/-- JS `a || b` on two optional values (`a` falsy when absent). -/
def jsOrOpt {α : Type} (a b : Option α) : Option α :=
  match a with
  | some x => some x
  | none => b

/-- The in-memory mutation updateInvoicePayment performs on the fetched
invoice document (billingController.js, lines 345-367): overwrite
paidAmount / paymentMethod / paymentDate from the body where supplied,
recompute balanceDue, and derive paymentStatus, setting paymentDate to
`paymentDate || now` in the paid branch. -/
def applyPaymentUpdate (inv : Invoice) (body : PaymentBody) (now : ℤ) : Invoice :=
  let inv : Invoice := match body.paidAmount with
    | some x => { inv with paidAmount := x }
    | none => inv
  let inv : Invoice := match body.paymentMethod with
    | some m => { inv with paymentMethod := m }
    | none => inv
  let inv : Invoice := match body.paymentDate with
    | some d => { inv with paymentDate := some d }
    | none => inv
  let inv : Invoice := { inv with balanceDue := inv.totalAmount - inv.paidAmount }
  if inv.paidAmount ≤ 0 then { inv with paymentStatus := .unpaid }
  else if inv.paidAmount < inv.totalAmount then
    { inv with paymentStatus := .partPaid }
  else
    { inv with paymentStatus := .paid,
               paymentDate := some (inv.paymentDate.getD now) }

/-- updateInvoicePayment (billingController.js, lines 334-376): look the
invoice up, apply the payment mutation, and save (which re-runs the
pre-save hook). -/
def updateInvoicePayment (store : Store) (id : ℕ) (body : PaymentBody)
    (now : ℤ) : UpdateResult × Store :=
  match store.invoices.find? (fun i => i.id = id) with
  | none => (.notFound, store)
  | some inv =>
    let upd := applyPaymentUpdate inv body now
    match saveInvoice now upd with
    | some fin =>
        (.ok fin,
         { store with invoices :=
            store.invoices.map (fun i => if i.id = id then fin else i) })
    | none => (.saveError, store)

/-- Whether `pat` occurs as a contiguous sublist of `l`. -/
def charInfix (pat : List Char) : List Char → Bool
  | [] => pat.isEmpty
  | c :: rest => pat.isPrefixOf (c :: rest) || charInfix pat rest

/-- String.prototype.includes: substring containment. -/
def jsIncludes (s pat : String) : Bool :=
  charInfix pat.toList s.toList

/-- `s.charAt(0).toUpperCase() + s.slice(1)`. -/
def capitalize (s : String) : String :=
  match s.toList with
  | [] => ""
  | c :: rest => String.mk (c.toUpper :: rest)

/-- Date.prototype.toLocaleDateString, modelled as a plain rendering of the
timestamp (the actual locale-dependent text carries no billing logic). -/
def localeDateString (t : ℤ) : String :=
  toString t

/-- Request body of POST /billing/invoices/consultation. -/
structure ConsultBody where
  appointmentId : Option ℕ := none
  paymentMethod : Option String := none
  paidAmount : Option ℚ := none
deriving DecidableEq, Repr

/-- Outcome of generateConsultationInvoice.  `conflictExisting` is the 400
response `Invoice already exists for this appointment` carrying
`data.invoiceId`; `fresh` wraps the delegated createInvoice outcome, which
the controller returns with status 201.  `serverError` models the crash on
a dangling populate reference. -/
inductive ConsultResult where
  | badRequest
  | apptNotFound
  | serverError
  | conflictExisting (invoiceId : ℕ)
  | fresh (r : CreateResult)
deriving DecidableEq, Repr

/-- generateConsultationInvoice (billingController.js, lines 379-457):
appointment lookup, the duplicate-invoice check on the appointment
reference, settings resolution, fee-tier selection by case-insensitive
substring match on the appointment type, and delegation to createInvoice
with the built single-item body. -/
def generateConsultationInvoice (store : Store) (user : UserCtx)
    (body : ConsultBody) (now : JsDate) : ConsultResult × Store :=
  match body.appointmentId with
  | none => (.badRequest, store)
  | some appointmentId =>
    match store.appointments.find? (fun a => a.id = appointmentId) with
    | none => (.apptNotFound, store)
    | some appointment =>
      match store.invoices.find? (fun i => i.appointment = some appointmentId) with
      | some existingInvoice => (.conflictExisting existingInvoice.id, store)
      | none =>
        let resolved := resolveSettings store user.hospitalId user.userId
        let bs := resolved.1
        let store1 := resolved.2
        let appointmentType :=
          match appointment.appointmentType with
          | none => "standard"
          | some s => if s.toLower = "" then "standard" else s.toLower
        let feeAmount :=
          if jsIncludes appointmentType "follow" then bs.consultationFees.followUp
          else if jsIncludes appointmentType "specialist" then
            bs.consultationFees.specialist
          else if jsIncludes appointmentType "emergency" then
            bs.consultationFees.emergency
          else bs.consultationFees.standard
        match store1.doctors.find? (fun d => d.id = appointment.doctor) with
        | none => (.serverError, store1)
        | some doctor =>
          if ¬ store1.patients.contains appointment.patient then
            (.serverError, store1)
          else
            let items : List ReqItem :=
              [{ description :=
                   capitalize appointmentType ++ " Consultation with " ++
                     doctor.firstName ++ " " ++ doctor.lastName
                 quantity := 1
                 unitPrice := feeAmount
                 amount := some feeAmount
                 hsn := "998331"
                 gstRate := bs.gstPercentage }]
            let invoiceData : CreateBody :=
              { patientId := some appointment.patient
                doctorId := some appointment.doctor
                appointmentId := some appointmentId
                invoiceType := some .consultation
                items := items
                notes := some ("Consultation on " ++
                  localeDateString appointment.appointmentDate ++ ", " ++
                  appointment.appointmentTime)
                paymentMethod := some (body.paymentMethod.getD "Cash")
                paidAmount := some (body.paidAmount.getD 0) }
            let inner := createInvoice store1 user invoiceData now
            (.fresh inner.1, inner.2)

/-- The overall summary block of getBillingStatistics (billingController.js,
lines 626-637 and 684-689). -/
structure StatsSummary where
  totalInvoices : ℕ := 0
  totalAmount : ℚ := 0
  paidAmount : ℚ := 0
  pendingAmount : ℚ := 0
deriving DecidableEq, Repr

/-- The invoices the `$match` stage written in getBillingStatistics selects:
the tenant's invoices whose invoiceDate lies in the selected range (the
Mongo `$gte` / `$lte` bounds are inclusive).  This stage is dead code: the
handler throws while building the match object, before any pipeline runs
(see `getBillingStatistics` below). -/
def statsMatch (invoices : List Invoice) (hospitalId : ℕ)
    (rangeStart rangeEnd : ℤ) : List Invoice :=
  invoices.filter (fun i =>
    i.hospital = hospitalId ∧ rangeStart ≤ i.invoiceDate ∧ i.invoiceDate ≤ rangeEnd)

/-- The `$group: _id: null` summary written in getBillingStatistics, with
the explicit all-zero object the controller substitutes when the
aggregation returns no row (lines 684-689).  Like `statsMatch`, this is
the summary the pipeline text describes, never one the handler computes:
execution errors out before reaching the aggregation (see
`getBillingStatistics` below). -/
def billingSummary (invoices : List Invoice) (hospitalId : ℕ)
    (rangeStart rangeEnd : ℤ) : StatsSummary :=
  let m := statsMatch invoices hospitalId rangeStart rangeEnd
  if m.isEmpty then {}
  else
    { totalInvoices := m.length
      totalAmount := (m.map (fun i => i.totalAmount)).sum
      paidAmount := (m.map (fun i => i.paidAmount)).sum
      pendingAmount := (m.map (fun i => i.balanceDue)).sum }

/-- Outcome of a GET billing-statistics request.  The handler is wrapped in
catchAsync (errorHandlers.js, lines 25-32), which forwards any thrown
error to the error middleware, so a throw surfaces as an error response
rather than a summary. -/
inductive StatsResult where
  | referenceError (message : String)
  | ok (summary : StatsSummary)
deriving DecidableEq, Repr

/-- The identifiers billingController.js binds at module scope: its require
lines, billingController.js lines 2-12.  `mongoose` is not among them. -/
def billingControllerImports : List String :=
  ["Invoice", "BillingSettings", "Appointment", "Patient", "Doctor",
   "Prescription", "LabTest", "Hospital", "logger", "catchAsync", "AppError"]

/-- getBillingStatistics (billingController.js, lines 608-719).  After the
pure date-range setup, the handler builds the `$match` object, whose first
field evaluates the free identifier `mongoose`
(`mongoose.Types.ObjectId(hospitalId)`, line 618).  The module never
requires mongoose, so in JavaScript this identifier lookup throws
`ReferenceError: mongoose is not defined` before any aggregation is
issued, and catchAsync forwards the error; only if the identifier were
bound in module scope would the pipelines run and yield `billingSummary`. -/
def getBillingStatistics (invoices : List Invoice) (hospitalId : ℕ)
    (rangeStart rangeEnd : ℤ) : StatsResult :=
  if billingControllerImports.contains "mongoose" then
    .ok (billingSummary invoices hospitalId rangeStart rangeEnd)
  else
    .referenceError "mongoose is not defined"

/-- Outcome of GET /walkin/invoices/:id. -/
inductive WalkInGetResult where
  | notFound
  | ok (inv : Invoice)
deriving DecidableEq, Repr

/-- getWalkInInvoiceById (walkInController.js, lines 319-346):
`Invoice.findOne({_id, hospital: req.user.hospital, customerType:
'walk-in'})`, answering 404 when nothing matches all three. -/
def getWalkInInvoiceById (invoices : List Invoice) (id : ℕ)
    (userHospital : ℕ) : WalkInGetResult :=
  match invoices.find? (fun i =>
      i.id = id ∧ i.hospital = userHospital ∧ i.customerType = .walkIn) with
  | none => .notFound
  | some inv => .ok inv

/-
  A model of the IEEE-754 binary64 arithmetic that JS numbers actually use,
  for the claim about floating-point drift.  A double is a dyadic rational
  `m * 2 ^ e` whose mantissa the rounding keeps within 53 bits; every
  arithmetic operation computes the exact rational result and rounds it to
  the nearest representable value, ties to even.  Overflow and subnormals
  are outside the monetary magnitudes involved and are not modelled.
-/

/-- A binary64 value, as the dyadic rational m * 2 ^ e. -/
structure F64 where
  m : ℤ
  e : ℤ
deriving DecidableEq, Repr

/-- Number of binary digits of n (0 for 0), with structural fuel. -/
def bitsAux : ℕ → ℕ → ℕ
  | 0, _ => 0
  | fuel + 1, n => if n = 0 then 0 else bitsAux fuel (n / 2) + 1

/-- Number of binary digits of n. -/
def bits (n : ℕ) : ℕ := bitsAux 400 n

/-- Round a / b to the nearest natural number, ties to even (b > 0). -/
def rhe (a b : ℕ) : ℕ :=
  let q := a / b
  let r := a % b
  if 2 * r < b then q
  else if b < 2 * r then q + 1
  else if q % 2 = 0 then q else q + 1

/-- Scale the fraction a / b by 2 ^ k, as a numerator-denominator pair. -/
def shiftNumDen (a b : ℕ) (k : ℤ) : ℕ × ℕ :=
  if 0 ≤ k then (a * 2 ^ k.toNat, b) else (a, b * 2 ^ (-k).toNat)

/-- Floor of a / b scaled by 2 ^ k. -/
def mantFloor (a b : ℕ) (k : ℤ) : ℕ :=
  let p := shiftNumDen a b k
  p.1 / p.2

/-- Round the positive fraction a / b (a, b > 0) to binary64: scale it by
2 ^ k so that its floor lands in the 53-bit mantissa range, then round
half-to-even. -/
def ratRoundPos (a b : ℕ) : F64 :=
  let k0 : ℤ := 52 - ((bits a : ℤ) - (bits b : ℤ))
  let k : ℤ :=
    if mantFloor a b k0 < 2 ^ 52 then k0 + 1
    else if 2 ^ 53 ≤ mantFloor a b k0 then k0 - 1
    else k0
  let p := shiftNumDen a b k
  ⟨(rhe p.1 p.2 : ℤ), -k⟩

/-- Round the rational n / d (d ≠ 0) to the nearest binary64 value. -/
def ratRound (n d : ℤ) : F64 :=
  if n = 0 then ⟨0, 0⟩
  else
    let neg : Bool := decide (n < 0) != decide (d < 0)
    let r := ratRoundPos n.natAbs d.natAbs
    if neg then ⟨-r.m, r.e⟩ else r

/-- A binary64 value as an exact integer fraction. -/
def F64.toNumDen (x : F64) : ℤ × ℤ :=
  if 0 ≤ x.e then (x.m * 2 ^ x.e.toNat, 1) else (x.m, 2 ^ (-x.e).toNat)

/-- Round a dyadic value back into binary64 after an exact operation. -/
def roundF (x : F64) : F64 :=
  let p := x.toNumDen
  ratRound p.1 p.2

/-- The exact rational value of a binary64 number. -/
def F64.toRat (x : F64) : ℚ :=
  if 0 ≤ x.e then (x.m : ℚ) * 2 ^ x.e.toNat else (x.m : ℚ) / 2 ^ (-x.e).toNat

/-- JS `+` on numbers: exact dyadic sum, rounded. -/
def jsAdd (x y : F64) : F64 :=
  let e := min x.e y.e
  roundF ⟨x.m * 2 ^ (x.e - e).toNat + y.m * 2 ^ (y.e - e).toNat, e⟩

/-- JS `*` on numbers: exact product, rounded. -/
def jsMul (x y : F64) : F64 :=
  roundF ⟨x.m * y.m, x.e + y.e⟩

/-- JS `/` on numbers (nonzero divisor): exact quotient, rounded. -/
def jsDiv (x y : F64) : F64 :=
  let p := (F64.mk x.m (x.e - y.e)).toNumDen
  ratRound p.1 (p.2 * y.m)

/-- The binary64 reading of a decimal literal n / d, e.g. the request-body
value 0.1 is `f64 1 10`. -/
def f64 (n d : ℤ) : F64 := ratRound n d

/-- A request line item in the binary64 model. -/
structure ReqItemF where
  quantity : F64 := f64 1 1
  unitPrice : F64 := f64 0 1
  amount : Option F64 := none
deriving DecidableEq, Repr

/-- `x || y` in the binary64 model: a present nonzero amount is kept. -/
def jsOrF (a : Option F64) (b : F64) : F64 :=
  match a with
  | none => b
  | some x => if x.m = 0 then b else x

/-- calculateTotals (billingController.js, lines 263-280) with the
arithmetic performed the way JS actually performs it, in binary64:
amounts default to quantity * unitPrice, `reduce((sum, item) => sum +
item.amount, 0)`, gst = subtotal * pct / 100, total = subtotal + gst.
Returns (item amounts, subtotal, gstAmount, totalAmount). -/
def calculateTotalsF64 (items : List ReqItemF) (gstPercentage : F64) :
    List F64 × F64 × F64 × F64 :=
  let amounts := items.map (fun it => jsOrF it.amount (jsMul it.quantity it.unitPrice))
  let subtotal := amounts.foldl jsAdd (f64 0 1)
  let gstAmount := jsDiv (jsMul subtotal gstPercentage) (f64 100 1)
  let totalAmount := jsAdd subtotal gstAmount
  (amounts, subtotal, gstAmount, totalAmount)

/-
  Concrete fixtures used by the counterexamples and witnesses below.
-/

/-- A doctor on file. -/
def drA : Doctor := { id := 0, firstName := "A", lastName := "B" }

/-- An appointment of patient 0 with doctor 0, with no appointmentType
recorded (the fee logic then falls back to the standard tier). -/
def apptStd : Appointment :=
  { id := 5, patient := 0, doctor := 0, appointmentType := none }

/-- A store holding one hospital (id 0) with default billing settings, one
patient, one doctor and one appointment, and no invoices yet. -/
def baseStore : Store :=
  { hospitals := [0], patients := [0], doctors := [drA],
    appointments := [apptStd], settings := [{ hospital := 0 }] }

/-- A persisted invoice whose totalAmount is 0 (obtainable from a single
zero-priced line item) and with nothing paid. -/
def zeroInvoice : Invoice :=
  { id := 1, invoiceNumber := "INV-2501-0001", patient := some 0 }

/-- A fully paid invoice with a recorded payment date. -/
def paidInvoice : Invoice :=
  { id := 1, invoiceNumber := "INV-2501-0001", patient := some 0,
    subtotal := 100, totalAmount := 100, paidAmount := 100,
    balanceDue := 0, paymentStatus := .paid, paymentDate := some 5 }

/-- What the payment update of amount 0 leaves of `paidInvoice`: status
unpaid, balance restored — and the payment date still on file. -/
def c5Result : Invoice :=
  { paidInvoice with paidAmount := 0, balanceDue := 100, paymentStatus := .unpaid }

/-- A half-paid invoice with a recorded payment date. -/
def halfPaidInvoice : Invoice :=
  { id := 1, invoiceNumber := "INV-2501-0001", patient := some 0,
    subtotal := 100, totalAmount := 100, paidAmount := 50,
    balanceDue := 50, paymentStatus := .partPaid, paymentDate := some 3 }

/-- A createInvoice body whose single item has unit price 0, so every line
amount is 0. -/
def bodyZero : CreateBody :=
  { patientId := some 0, invoiceType := some .consultation,
    items := [{ description := "Zero item", quantity := 1, unitPrice := 0 }] }

/-- The invoice the zero-amount body actually creates. -/
def zeroCreated : Invoice :=
  { id := 0, invoiceNumber := "INV-2501-0001", patient := some 0,
    items := [{ description := "Zero item", quantity := 1, unitPrice := 0,
                amount := 0, hsn := "", gstRate := 0 }],
    gstNumber := "29AADCB2230M1ZP", gstPercentage := 18 }

/-- The invoice the consultation generator creates for `apptStd` on
`baseStore` (standard fee 500, 18 percent tax). -/
def c4Inv : Invoice :=
  { id := 0, invoiceNumber := "INV-2501-0001", invoiceDate := 0,
    patient := some 0, doctor := some 0, appointment := some 5,
    invoiceType := .consultation,
    items := [{ description := "Standard Consultation with A B", quantity := 1, unitPrice := 500, amount := 500, hsn := "998331", gstRate := 18 }],
    subtotal := 500, gstNumber := "29AADCB2230M1ZP", gstPercentage := 18,
    gstAmount := 90, totalAmount := 590, paidAmount := 0, balanceDue := 590,
    paymentMethod := "Cash", paymentStatus := .unpaid,
    notes := some ("Consultation on " ++ localeDateString 0 ++ ", "),
    createdBy := 0, hospital := 0 }

/-- The store after that first consultation-invoice generation. -/
def c4Store1 : Store := { baseStore with invoices := [c4Inv], nextId := 1 }

/-- The payment-state invariant every saved invoice is claimed to satisfy,
amended with paidAmount > 0 in the paid clause (the hook gives the unpaid
branch precedence when paidAmount <= 0, so a zero-total invoice with
nothing paid is unpaid, not paid). -/
def paymentInvariant (i : Invoice) : Prop :=
  i.balanceDue = i.totalAmount - i.paidAmount ∧
  (i.paidAmount ≤ 0 → i.paymentStatus = .unpaid) ∧
  (0 < i.paidAmount → i.paidAmount < i.totalAmount → i.paymentStatus = .partPaid) ∧
  (0 < i.paidAmount → i.totalAmount ≤ i.paidAmount → i.paymentStatus = .paid)

/-
  Theorems.  Helper simp lemmas first, then one theorem per claim (with its
  counterexample and witness where applicable).
-/

@[simp] theorem unpaid_ne_partPaid : PaymentStatus.unpaid ≠ PaymentStatus.partPaid := by decide

@[simp] theorem unpaid_ne_paid : PaymentStatus.unpaid ≠ PaymentStatus.paid := by decide

@[simp] theorem partPaid_ne_unpaid : PaymentStatus.partPaid ≠ PaymentStatus.unpaid := by decide

@[simp] theorem partPaid_ne_paid : PaymentStatus.partPaid ≠ PaymentStatus.paid := by decide

@[simp] theorem paid_ne_unpaid : PaymentStatus.paid ≠ PaymentStatus.unpaid := by decide

@[simp] theorem paid_ne_partPaid : PaymentStatus.paid ≠ PaymentStatus.partPaid := by decide

@[simp] theorem registered_ne_walkIn : CustomerType.registered ≠ CustomerType.walkIn := by decide

@[simp] theorem walkIn_ne_registered : CustomerType.walkIn ≠ CustomerType.registered := by decide

/-- C2 (amended): after the pre-save hook — which runs on every persisted
save, both at creation and at every payment update — balanceDue equals
totalAmount - paidAmount exactly and unclamped, paymentStatus is unpaid iff
paidAmount <= 0, paid iff paidAmount is positive and at least totalAmount,
and partial otherwise.  (The unamended claim read: paid iff paidAmount >=
totalAmount; the hook gives the unpaid branch precedence, so a zero-total
invoice with nothing paid is unpaid even though paidAmount >=
totalAmount.) -/
theorem C2_payment_state (inv : Invoice) (now : ℤ) :
    (preSave now inv).balanceDue
        = (preSave now inv).totalAmount - (preSave now inv).paidAmount ∧
    ((preSave now inv).paymentStatus = .unpaid ↔ (preSave now inv).paidAmount ≤ 0) ∧
    ((preSave now inv).paymentStatus = .paid ↔
      0 < (preSave now inv).paidAmount ∧
        (preSave now inv).totalAmount ≤ (preSave now inv).paidAmount) ∧
    ((preSave now inv).paymentStatus = .partPaid ↔
      0 < (preSave now inv).paidAmount ∧
        (preSave now inv).paidAmount < (preSave now inv).totalAmount) := by
  unfold preSave
  dsimp only
  split_ifs with h1 h2
  · exact ⟨rfl, iff_of_true rfl h1,
      iff_of_false (by decide) (fun hc => absurd hc.1 (not_lt.mpr h1)),
      iff_of_false (by decide) (fun hc => absurd hc.1 (not_lt.mpr h1))⟩
  · exact ⟨rfl, iff_of_false (by decide) h1,
      iff_of_false (by decide) (fun hc => absurd h2 (not_lt.mpr hc.2)),
      iff_of_true rfl ⟨not_le.mp h1, h2⟩⟩
  · exact ⟨rfl, iff_of_false (by decide) h1,
      iff_of_true rfl ⟨not_le.mp h1, not_lt.mp h2⟩,
      iff_of_false (by decide) (fun hc => absurd hc.2 h2)⟩

/-- C2 counterexample: a zero-total invoice put through a payment update of
amount 0 persists with paidAmount >= totalAmount yet paymentStatus unpaid,
refuting the claimed biconditional `paid iff paidAmount >= totalAmount`. -/
theorem C2_counterexample :
    updateInvoicePayment { invoices := [zeroInvoice] } 1 { paidAmount := some 0 } 9 =
      (.ok zeroInvoice, { invoices := [zeroInvoice] }) ∧
    zeroInvoice.totalAmount ≤ zeroInvoice.paidAmount ∧
    zeroInvoice.paymentStatus ≠ .paid := by
  simp [updateInvoicePayment, applyPaymentUpdate, zeroInvoice, saveInvoice,
        schemaValid, preSave]

/-- C2 witness: the fully paid invoice is marked paid by the hook, via the
amended biconditional. -/
theorem C2_payment_state_witness :
    (preSave 3 paidInvoice).paymentStatus = .paid :=
  ((C2_payment_state paidInvoice 3).2.2.1).mpr
    (by constructor <;> · simp [preSave, paidInvoice]; norm_num)

/-- C9 (amended): whatever the caller left in balanceDue, paymentStatus or
paymentDate, the pre-save hook re-derives the payment state on every save,
so every committed invoice satisfies the payment invariant (with the paid
clause amended by paidAmount > 0); and the hook does not alter paidAmount
or totalAmount themselves. -/
theorem C9_presave_invariant (inv : Invoice) (now : ℤ) :
    paymentInvariant (preSave now inv) ∧
    (preSave now inv).paidAmount = inv.paidAmount ∧
    (preSave now inv).totalAmount = inv.totalAmount := by
  unfold preSave paymentInvariant
  dsimp only
  split_ifs with h1 h2
  · exact ⟨⟨rfl, fun _ => rfl,
      fun h _ => absurd h (not_lt.mpr h1),
      fun h _ => absurd h (not_lt.mpr h1)⟩, rfl, rfl⟩
  · exact ⟨⟨rfl, fun hle => absurd (not_le.mp h1) (not_lt.mpr hle),
      fun _ _ => rfl,
      fun _ hge => absurd h2 (not_lt.mpr hge)⟩, rfl, rfl⟩
  · exact ⟨⟨rfl, fun hle => absurd (not_le.mp h1) (not_lt.mpr hle),
      fun _ hlt => absurd hlt h2,
      fun _ _ => rfl⟩, rfl, rfl⟩

/-- C9 witness: the half-paid invoice satisfies the payment invariant
after the hook runs. -/
theorem C9_presave_invariant_witness :
    paymentInvariant (preSave 0 halfPaidInvoice) :=
  (C9_presave_invariant halfPaidInvoice 0).1

/-- C9 counterexample: the unamended claim says a saved invoice with
paidAmount >= totalAmount has status paid; the hook instead marks a
zero-total, zero-paid invoice unpaid (its unpaid branch wins), even when
the caller had pre-set the status to paid. -/
theorem C9_counterexample :
    (preSave 9 { totalAmount := 0, paidAmount := 0, paymentStatus := .paid,
                 balanceDue := 77, paymentDate := some 3 }).totalAmount ≤
      (preSave 9 { totalAmount := 0, paidAmount := 0, paymentStatus := .paid,
                   balanceDue := 77, paymentDate := some 3 }).paidAmount ∧
    (preSave 9 { totalAmount := 0, paidAmount := 0, paymentStatus := .paid,
                 balanceDue := 77, paymentDate := some 3 }).paymentStatus ≠ .paid := by
  simp [preSave]

/-- Folding `(sum, item) => sum + item.amount` over a list equals the
accumulator plus the sum of the item amounts. -/
theorem foldl_add_amount (l : List InvoiceItem) (a : ℚ) :
    l.foldl (fun sum it => sum + it.amount) a =
      a + (l.map (fun i => i.amount)).sum := by
  induction l generalizing a with
  | nil => simp
  | cons x xs ih => simp [ih, add_assoc]

/-- C1 (amended): generateInvoiceNumber has the format
PREFIX-YYMM-NNNN, where NNNN is one more than the number of invoices the
hospital already has, zero-padded to at least four digits.  The counter is
scoped to the tenant alone: invoices of other hospitals do not affect it,
every invoice of the hospital advances it, and — contrary to the unamended
claim — it is not scoped to (prefix, year-month) and never restarts at 1
when the month or the prefix changes (the date appears only in the YYMM
segment). -/
theorem C1_invoice_number (pfx : String) (h : ℕ) (invoices : List Invoice)
    (d : MDate) :
    generateInvoiceNumber pfx h invoices d =
      pfx ++ "-" ++ lastTwo (Nat.repr d.year) ++ padStart (Nat.repr d.month) 2 '0'
        ++ "-" ++ padStart (Nat.repr
            ((invoices.filter (fun i => i.hospital = h)).length + 1)) 4 '0' ∧
    (∀ inv : Invoice, inv.hospital ≠ h →
      generateInvoiceNumber pfx h (inv :: invoices) d =
        generateInvoiceNumber pfx h invoices d) ∧
    (∀ inv : Invoice, inv.hospital = h →
      ((inv :: invoices).filter (fun i => i.hospital = h)).length =
        (invoices.filter (fun i => i.hospital = h)).length + 1) := by
  refine ⟨rfl, ?_, ?_⟩
  · intro inv hne
    simp [generateInvoiceNumber, List.filter_cons, hne]
  · intro inv heq
    simp [List.filter_cons, heq]

/-- C1 witness: with no invoice on file the generated number is
INV-2501-0001; an invoice of another hospital leaves the number unchanged,
and an invoice of the same hospital advances the counter by one. -/
theorem C1_invoice_number_witness :
    generateInvoiceNumber "INV" 0 [{ hospital := 1 }] ⟨2025, 1⟩ =
      generateInvoiceNumber "INV" 0 [] ⟨2025, 1⟩ ∧
    (([({ hospital := 0 } : Invoice)] : List Invoice).filter
        (fun i => i.hospital = 0)).length =
      (([] : List Invoice).filter (fun i => i.hospital = 0)).length + 1 :=
  ⟨(C1_invoice_number "INV" 0 [] ⟨2025, 1⟩).2.1 { hospital := 1 } (by decide),
   (C1_invoice_number "INV" 0 [] ⟨2025, 1⟩).2.2 { hospital := 0 } rfl⟩

/-- C1 counterexample: the hospital already holds one invoice (created in
January); the number generated in February is INV-2502-0002, not the
INV-2502-0001 a counter restarting per (tenant, prefix, year-month) would
give. -/
theorem C1_counterexample :
    generateInvoiceNumber "INV" 0
      [{ id := 0, invoiceNumber := "INV-2501-0001", invoiceDate := 100,
         hospital := 0 }] ⟨2025, 2⟩ = "INV-2502-0002" ∧
    ("INV-2502-0002" : String) ≠ "INV-2502-0001" := by
  constructor <;> decide

/-- C6 (amended): calculateTotals keeps a caller-supplied item amount only
when it is nonzero; a supplied amount of 0 — like an absent amount — is
replaced by quantity * unitPrice, because the source uses the falsy-guard
`item.amount || quantity * unitPrice` rather than a nullish check. -/
theorem C6_item_amount (items : List ReqItem) (g : ℚ) (k : ℕ) (it : ReqItem)
    (hk : items[k]? = some it) :
    ∃ pit : InvoiceItem,
      (calculateTotals items g).processedItems[k]? = some pit ∧
      (∀ x : ℚ, it.amount = some x → x ≠ 0 → pit.amount = x) ∧
      ((it.amount = none ∨ it.amount = some 0) →
        pit.amount = it.quantity * it.unitPrice) ∧
      pit.quantity = it.quantity ∧ pit.unitPrice = it.unitPrice := by
  refine ⟨{ description := it.description, quantity := it.quantity,
            unitPrice := it.unitPrice,
            amount := jsOr it.amount (it.quantity * it.unitPrice),
            hsn := it.hsn, gstRate := it.gstRate }, ?_, ?_, ?_, rfl, rfl⟩
  · simp [calculateTotals, List.getElem?_map, hk]
  · intro x hx hx0
    simp [jsOr, hx, hx0]
  · rintro (hx | hx) <;> simp [jsOr, hx]

/-- C6 witness: a supplied nonzero amount of 7 on a quantity-3, price-4
item is kept as 7. -/
theorem C6_item_amount_witness :
    ∃ pit : InvoiceItem,
      (calculateTotals [{ description := "d", quantity := 3, unitPrice := 4, amount := some 7 }] 18).processedItems[0]? = some pit ∧
      (∀ x : ℚ, (some (7 : ℚ) : Option ℚ) = some x → x ≠ 0 → pit.amount = x) ∧
      (((some (7 : ℚ) : Option ℚ) = none ∨ (some (7 : ℚ) : Option ℚ) = some 0) →
        pit.amount = (3 : ℚ) * 4) ∧
      pit.quantity = 3 ∧ pit.unitPrice = 4 :=
  C6_item_amount [{ description := "d", quantity := 3, unitPrice := 4, amount := some 7 }] 18 0 { description := "d", quantity := 3, unitPrice := 4, amount := some 7 } rfl

/-- C6 counterexample: a caller-supplied amount of 0 (a full manual
discount) on a quantity-2, price-500 item is not kept: the stored amount is
the recomputed 1000. -/
theorem C6_counterexample :
    ((calculateTotals [{ description := "Discounted", quantity := 2, unitPrice := 500, amount := some 0 }] 0).processedItems.map
        (fun i => i.amount)) = [1000] ∧ (1000 : ℚ) ≠ 0 := by
  constructor
  · simp [calculateTotals, jsOr]
    norm_num
  · norm_num

/-- C3 (amended): in exact rational arithmetic the totals of invoice
creation satisfy the claimed equations — subtotal is the sum of the
processed item amounts, gstAmount is subtotal * percentage / 100 and
totalAmount is subtotal + gstAmount.  The implementation, however, runs
these formulas in IEEE-754 binary64, where the subtotal of fractional
prices can differ from the exact sum of the stored amounts (see the
counterexample), so exactness across many fractional items does not hold
as claimed. -/
theorem C3_totals (items : List ReqItem) (g : ℚ) :
    (calculateTotals items g).subtotal =
      ((calculateTotals items g).processedItems.map (fun i => i.amount)).sum ∧
    (calculateTotals items g).gstAmount =
      (calculateTotals items g).subtotal * g / 100 ∧
    (calculateTotals items g).totalAmount =
      (calculateTotals items g).subtotal + (calculateTotals items g).gstAmount := by
  refine ⟨?_, rfl, rfl⟩
  unfold calculateTotals
  dsimp only
  rw [foldl_add_amount, zero_add]

/-- C3 counterexample: two items whose amounts are the doubles written 0.1
and 0.2 in the request: the binary64 subtotal computed by the code differs
from the exact sum of the two stored amounts (the classic
0.30000000000000004 versus 0.3 drift). -/
theorem C3_counterexample :
    F64.toRat (calculateTotalsF64
        [{ amount := some (f64 1 10) }, { amount := some (f64 2 10) }]
        (f64 0 1)).2.1 ≠
      F64.toRat (f64 1 10) + F64.toRat (f64 2 10) := by
  have h1 : (calculateTotalsF64
      [{ amount := some (f64 1 10) }, { amount := some (f64 2 10) }]
      (f64 0 1)).2.1 = ⟨5404319552844596, -54⟩ := by decide
  have h2 : f64 1 10 = ⟨7205759403792794, -56⟩ := by decide
  have h3 : f64 2 10 = ⟨7205759403792794, -55⟩ := by decide
  rw [h1, h2, h3]
  unfold F64.toRat
  have e54 : Int.toNat 54 = 54 := rfl
  have e55 : Int.toNat 55 = 55 := rfl
  have e56 : Int.toNat 56 = 56 := rfl
  norm_num [e54, e55, e56]

/-- C5 (amended): on a payment update (the fetched invoice mutated by the
request body, then saved through the pre-save hook), paidAmount <= 0 yields
status unpaid with the payment date left as the caller-supplied date or
else the previously stored one — it is not cleared; and a positive
paidAmount at least totalAmount yields status paid with the payment date
set to now only when neither a stored nor a supplied date exists (an
existing paymentDate is preserved).  The last conjunct ties this to the
operation: a successful updateInvoicePayment persists exactly this
invoice. -/
theorem C5_payment_date (inv0 : Invoice) (body : PaymentBody) (now : ℤ) :
    ((preSave now (applyPaymentUpdate inv0 body now)).paidAmount ≤ 0 →
      (preSave now (applyPaymentUpdate inv0 body now)).paymentStatus = .unpaid ∧
      (preSave now (applyPaymentUpdate inv0 body now)).paymentDate =
        jsOrOpt body.paymentDate inv0.paymentDate) ∧
    (0 < (preSave now (applyPaymentUpdate inv0 body now)).paidAmount →
      (preSave now (applyPaymentUpdate inv0 body now)).totalAmount ≤
        (preSave now (applyPaymentUpdate inv0 body now)).paidAmount →
      (preSave now (applyPaymentUpdate inv0 body now)).paymentStatus = .paid ∧
      (preSave now (applyPaymentUpdate inv0 body now)).paymentDate =
        some ((jsOrOpt body.paymentDate inv0.paymentDate).getD now)) ∧
    (∀ (store : Store) (id : ℕ) (fin : Invoice) (s : Store),
      store.invoices.find? (fun i => i.id = id) = some inv0 →
      updateInvoicePayment store id body now = (.ok fin, s) →
      fin = preSave now (applyPaymentUpdate inv0 body now)) := by
  refine ⟨?_, ?_, ?_⟩
  · rcases body with ⟨bp, bm, bd⟩
    unfold applyPaymentUpdate preSave
    cases bp <;> cases bm <;> cases bd <;>
      dsimp only [jsOrOpt] <;> split_ifs <;> intro h <;>
      first
        | exact ⟨rfl, rfl⟩
        | (exfalso; linarith)
  · rcases body with ⟨bp, bm, bd⟩
    unfold applyPaymentUpdate preSave
    cases bp <;> cases bm <;> cases bd <;>
      dsimp only [jsOrOpt] <;> split_ifs <;> intro h1 h2 <;>
      first
        | exact ⟨rfl, by simp⟩
        | (exfalso; linarith)
  · intro store id fin s hfind hok
    unfold updateInvoicePayment at hok
    rw [hfind] at hok
    dsimp only at hok
    unfold saveInvoice at hok
    split_ifs at hok with hv <;> dsimp only at hok
    · simp only [Prod.mk.injEq, UpdateResult.ok.injEq] at hok
      exact hok.1.symm
    · exact UpdateResult.noConfusion (congrArg Prod.fst hok)

/-- C5 witness: paying 150 on a half-paid 100-total invoice whose payment
date is already 3 marks it paid and keeps the date 3 (not now = 9). -/
theorem C5_payment_date_witness :
    (preSave 9 (applyPaymentUpdate halfPaidInvoice { paidAmount := some 150 } 9)).paymentStatus = .paid ∧
    (preSave 9 (applyPaymentUpdate halfPaidInvoice { paidAmount := some 150 } 9)).paymentDate = some 3 := by
  have h := (C5_payment_date halfPaidInvoice { paidAmount := some 150 } 9).2.1
    (by simp [applyPaymentUpdate, preSave, halfPaidInvoice]; norm_num)
    (by simp [applyPaymentUpdate, preSave, halfPaidInvoice]; norm_num)
  exact ⟨h.1, by rw [h.2]; simp [jsOrOpt, halfPaidInvoice]⟩

/-- C5 counterexample: recording a payment of 0 on a fully paid invoice
with paymentDate 5 persists status unpaid with paymentDate still 5 — the
claim that the stored payment date is cleared when paidAmount <= 0 is
false. -/
theorem C5_counterexample :
    updateInvoicePayment { invoices := [paidInvoice] } 1 { paidAmount := some 0 } 9 =
      (.ok c5Result, { invoices := [c5Result] }) ∧
    c5Result.paidAmount ≤ 0 ∧ c5Result.paymentStatus = .unpaid ∧
    c5Result.paymentDate = some 5 ∧ c5Result.paymentDate ≠ none := by
  simp [updateInvoicePayment, applyPaymentUpdate, paidInvoice, c5Result,
        saveInvoice, schemaValid, preSave]

/-- The summary the dead aggregation text of getBillingStatistics
describes: over exactly the tenant invoices whose invoiceDate falls in the
selected range (inclusive bounds), it holds the invoice count, the sums of
totalAmount and paidAmount, and pendingAmount as the sum of balanceDue;
with no invoice in range all four values are 0.  This characterises the
intent only — `getBillingStatistics` itself never returns this summary. -/
theorem billingSummary_spec (invoices : List Invoice) (h : ℕ) (s e : ℤ) :
    (billingSummary invoices h s e).totalInvoices =
      (statsMatch invoices h s e).length ∧
    (billingSummary invoices h s e).totalAmount =
      ((statsMatch invoices h s e).map (fun i => i.totalAmount)).sum ∧
    (billingSummary invoices h s e).paidAmount =
      ((statsMatch invoices h s e).map (fun i => i.paidAmount)).sum ∧
    (billingSummary invoices h s e).pendingAmount =
      ((statsMatch invoices h s e).map (fun i => i.balanceDue)).sum ∧
    (∀ i : Invoice, i ∈ statsMatch invoices h s e ↔
      i ∈ invoices ∧ i.hospital = h ∧ s ≤ i.invoiceDate ∧ i.invoiceDate ≤ e) ∧
    (statsMatch invoices h s e = [] →
      billingSummary invoices h s e =
        { totalInvoices := 0, totalAmount := 0, paidAmount := 0,
          pendingAmount := 0 }) := by
  have hmem : ∀ i : Invoice, i ∈ statsMatch invoices h s e ↔
      i ∈ invoices ∧ i.hospital = h ∧ s ≤ i.invoiceDate ∧ i.invoiceDate ≤ e := by
    intro i
    unfold statsMatch
    simp [List.mem_filter]
  by_cases hm : statsMatch invoices h s e = []
  · refine ⟨?_, ?_, ?_, ?_, hmem, fun _ => ?_⟩ <;>
      simp [billingSummary, hm]
  · have hne : (statsMatch invoices h s e).isEmpty = false := by
      simpa [List.isEmpty_iff] using hm
    refine ⟨?_, ?_, ?_, ?_, hmem, fun hcon => absurd hcon hm⟩ <;>
      simp [billingSummary, hne]

/-- The stored invoice has invoiceDate 0, so the range 20..30 matches
nothing and the described summary carries all four values as 0. -/
theorem billingSummary_empty_range :
    billingSummary [paidInvoice] 0 20 30 =
      { totalInvoices := 0, totalAmount := 0, paidAmount := 0,
        pendingAmount := 0 } :=
  (billingSummary_spec [paidInvoice] 0 20 30).2.2.2.2.2 (by decide)

/-- C8: the statistics operation never reports the claimed in-range
summary — for every tenant, date range and invoice store, the request
fails: building the match object evaluates the identifier `mongoose`,
which billingController.js never imports, so the handler throws
ReferenceError before any aggregation and the response is the forwarded
error, never an ok summary and in particular never the count-and-sums
summary the claim describes. -/
theorem C8_statistics_crashes (invoices : List Invoice) (h : ℕ) (s e : ℤ) :
    getBillingStatistics invoices h s e =
      .referenceError "mongoose is not defined" ∧
    (∀ sm : StatsSummary, getBillingStatistics invoices h s e ≠ .ok sm) ∧
    getBillingStatistics invoices h s e ≠
      .ok (billingSummary invoices h s e) := by
  have hm : "mongoose" ∉ billingControllerImports := by decide
  refine ⟨?_, ?_, ?_⟩ <;> simp [getBillingStatistics, hm]

/-- C10: the walk-in invoice-by-id lookup returns an invoice only when it
simultaneously matches the requested id, belongs to the requesting user's
hospital, and is a walk-in invoice; when no stored invoice satisfies all
three — in particular for an existing invoice of a different tenant, or a
registered-patient invoice — it answers not-found. -/
theorem C10_walkin_lookup (invoices : List Invoice) (id h : ℕ) :
    (∀ inv : Invoice, getWalkInInvoiceById invoices id h = .ok inv →
      inv ∈ invoices ∧ inv.id = id ∧ inv.hospital = h ∧
        inv.customerType = .walkIn) ∧
    ((∀ inv ∈ invoices,
        ¬(inv.id = id ∧ inv.hospital = h ∧ inv.customerType = .walkIn)) →
      getWalkInInvoiceById invoices id h = .notFound) := by
  constructor
  · intro inv hok
    unfold getWalkInInvoiceById at hok
    cases hfind : invoices.find? (fun i =>
        i.id = id ∧ i.hospital = h ∧ i.customerType = .walkIn) with
    | none => rw [hfind] at hok; exact WalkInGetResult.noConfusion hok
    | some x =>
        rw [hfind] at hok
        have hx : inv = x := (WalkInGetResult.ok.inj hok).symm
        subst hx
        have hp := List.find?_some hfind
        have hmem := List.mem_of_find?_eq_some hfind
        simp only [decide_eq_true_eq, Bool.and_eq_true] at hp
        exact ⟨hmem, by simpa using hp⟩
  · intro hall
    unfold getWalkInInvoiceById
    have hnone : invoices.find? (fun i =>
        i.id = id ∧ i.hospital = h ∧ i.customerType = .walkIn) = none := by
      rw [List.find?_eq_none]
      intro x hx
      simpa using hall x hx
    rw [hnone]

/-- C10 witness: with a walk-in invoice of another hospital and a
registered invoice of the requesting hospital on file, both under the
requested id, the lookup answers not-found. -/
theorem C10_walkin_lookup_witness :
    getWalkInInvoiceById
      [{ id := 1, invoiceNumber := "PH-2501-0001", customerType := .walkIn,
         walkInName := some "W", hospital := 1 },
       { id := 1, invoiceNumber := "INV-2501-0002", patient := some 0,
         hospital := 0 }] 1 0 = .notFound :=
  (C10_walkin_lookup
    [{ id := 1, invoiceNumber := "PH-2501-0001", customerType := .walkIn,
       walkInName := some "W", hospital := 1 },
     { id := 1, invoiceNumber := "INV-2501-0002", patient := some 0,
       hospital := 0 }] 1 0).2 (by decide)

/-- Settings resolution may create a settings record but touches no other
collection. -/
theorem resolveSettings_collections (store : Store) (h uid : ℕ) :
    (resolveSettings store h uid).2.invoices = store.invoices ∧
    (resolveSettings store h uid).2.patients = store.patients ∧
    (resolveSettings store h uid).2.doctors = store.doctors ∧
    (resolveSettings store h uid).2.hospitals = store.hospitals ∧
    (resolveSettings store h uid).2.appointments = store.appointments := by
  unfold resolveSettings
  cases store.settings.find? (fun s => s.hospital = h) <;>
    exact ⟨rfl, rfl, rfl, rfl, rfl⟩

/-- A successful save stores exactly the hook-processed document. -/
theorem saveInvoice_some (t : ℤ) (i fin : Invoice)
    (h : saveInvoice t i = some fin) : fin = preSave t i := by
  unfold saveInvoice at h
  split_ifs at h
  exact (Option.some.inj h).symm

/-- The pre-save hook does not alter the appointment reference. -/
theorem preSave_appointment (t : ℤ) (i : Invoice) :
    (preSave t i).appointment = i.appointment := by
  unfold preSave
  dsimp only
  split_ifs <;> rfl

/-- The built invoice carries the request body appointment reference. -/
theorem buildInvoice_appointment (s1 : Store) (bs : BillingSettings)
    (u : UserCtx) (body : CreateBody) (pid : ℕ) (ty : InvoiceType)
    (now : JsDate) :
    (buildInvoice s1 bs u body pid ty now).appointment = body.appointmentId := rfl

/-- Committing either appends exactly the hook-processed invoice or, on a
validation failure, changes nothing. -/
theorem commitInvoice_cases (now : ℤ) (inv : Invoice) (s1 : Store) :
    (∃ fin, commitInvoice now inv s1 =
        (.created fin,
         { s1 with invoices := s1.invoices ++ [fin], nextId := s1.nextId + 1 }) ∧
      fin = preSave now inv) ∨
    commitInvoice now inv s1 = (.saveError, s1) := by
  unfold commitInvoice
  cases hsv : saveInvoice now inv with
  | some fin => exact .inl ⟨fin, rfl, saveInvoice_some _ _ _ hsv⟩
  | none => exact .inr rfl

/-- createInvoice either creates exactly one invoice — appended to the
collection, carrying the body appointment reference — or creates nothing;
in both cases every other collection is untouched. -/
theorem createInvoice_cases (store : Store) (u : UserCtx)
    (body : CreateBody) (now : JsDate) :
    (∃ fin, (createInvoice store u body now).1 = .created fin ∧
      (createInvoice store u body now).2.invoices = store.invoices ++ [fin] ∧
      fin.appointment = body.appointmentId ∧
      (createInvoice store u body now).2.patients = store.patients ∧
      (createInvoice store u body now).2.doctors = store.doctors ∧
      (createInvoice store u body now).2.hospitals = store.hospitals ∧
      (createInvoice store u body now).2.appointments = store.appointments) ∨
    ((∀ inv : Invoice, (createInvoice store u body now).1 ≠ .created inv) ∧
      (createInvoice store u body now).2.invoices = store.invoices ∧
      (createInvoice store u body now).2.patients = store.patients ∧
      (createInvoice store u body now).2.doctors = store.doctors ∧
      (createInvoice store u body now).2.hospitals = store.hospitals ∧
      (createInvoice store u body now).2.appointments = store.appointments) := by
  unfold createInvoice
  rcases hbp : body.patientId with _ | pid
  · exact .inr ⟨fun inv h => CreateResult.noConfusion h, rfl, rfl, rfl, rfl, rfl⟩
  · rcases hbt : body.invoiceType with _ | ty
    · exact .inr ⟨fun inv h => CreateResult.noConfusion h, rfl, rfl, rfl, rfl, rfl⟩
    · dsimp only
      by_cases h1 : body.items = []
      · rw [if_pos h1]
        exact .inr ⟨fun inv h => CreateResult.noConfusion h, rfl, rfl, rfl, rfl, rfl⟩
      · rw [if_neg h1]
        by_cases h2 : ¬ store.patients.contains pid
        · rw [if_pos h2]
          exact .inr ⟨fun inv h => CreateResult.noConfusion h, rfl, rfl, rfl, rfl, rfl⟩
        · rw [if_neg h2]
          by_cases h3 : body.doctorId.elim false
              (fun d => (store.doctors.find? (fun doc => doc.id = d)).isNone) = true
          · rw [if_pos h3]
            exact .inr ⟨fun inv h => CreateResult.noConfusion h, rfl, rfl, rfl, rfl, rfl⟩
          · rw [if_neg h3]
            by_cases h4 : ¬ store.hospitals.contains u.hospitalId
            · rw [if_pos h4]
              exact .inr ⟨fun inv h => CreateResult.noConfusion h, rfl, rfl, rfl, rfl, rfl⟩
            · rw [if_neg h4]
              rcases commitInvoice_cases now.epoch
                  (buildInvoice (resolveSettings store u.hospitalId u.userId).2
                    (resolveSettings store u.hospitalId u.userId).1 u body pid ty now)
                  (resolveSettings store u.hospitalId u.userId).2 with
                hcc | heq
              · obtain ⟨fin, heq, hfin⟩ := hcc
                rw [heq]
                refine .inl ⟨fin, rfl, ?_, ?_, ?_, ?_, ?_, ?_⟩
                · dsimp only
                  rw [(resolveSettings_collections store u.hospitalId u.userId).1]
                · rw [hfin, preSave_appointment, buildInvoice_appointment]
                · exact (resolveSettings_collections store u.hospitalId u.userId).2.1
                · exact (resolveSettings_collections store u.hospitalId u.userId).2.2.1
                · exact (resolveSettings_collections store u.hospitalId u.userId).2.2.2.1
                · exact (resolveSettings_collections store u.hospitalId u.userId).2.2.2.2
              · rw [heq]
                refine .inr ⟨fun inv h => CreateResult.noConfusion h, ?_, ?_, ?_, ?_, ?_⟩
                · exact (resolveSettings_collections store u.hospitalId u.userId).1
                · exact (resolveSettings_collections store u.hospitalId u.userId).2.1
                · exact (resolveSettings_collections store u.hospitalId u.userId).2.2.1
                · exact (resolveSettings_collections store u.hospitalId u.userId).2.2.2.1
                · exact (resolveSettings_collections store u.hospitalId u.userId).2.2.2.2


/-- C7 (amended): invoice creation fails with a not-found error and
performs no write when the referenced patient, doctor or hospital does not
exist, and with a validation error when the item list is empty or missing;
in every non-created outcome no invoice record is persisted.  (The
unamended claim also promised a validation error when every item amount is
<= 0; no such check exists — see the counterexample, where a zero-amount
invoice is created.) -/
theorem C7_create_failures (store : Store) (u : UserCtx) (body : CreateBody)
    (now : JsDate) :
    (body.items = [] →
      ∃ m, createInvoice store u body now = (.badRequest m, store)) ∧
    (∀ pid, body.patientId = some pid → body.invoiceType ≠ none →
      body.items ≠ [] → ¬ store.patients.contains pid →
      ∃ m, createInvoice store u body now = (.notFound m, store)) ∧
    (∀ pid did, body.patientId = some pid → body.invoiceType ≠ none →
      body.items ≠ [] → store.patients.contains pid →
      body.doctorId = some did →
      store.doctors.find? (fun doc => doc.id = did) = none →
      ∃ m, createInvoice store u body now = (.notFound m, store)) ∧
    (∀ pid, body.patientId = some pid → body.invoiceType ≠ none →
      body.items ≠ [] → store.patients.contains pid →
      (body.doctorId = none ∨ ∃ did doc, body.doctorId = some did ∧
        store.doctors.find? (fun d => d.id = did) = some doc) →
      ¬ store.hospitals.contains u.hospitalId →
      ∃ m, createInvoice store u body now = (.notFound m, store)) ∧
    (∀ r s, createInvoice store u body now = (r, s) →
      (∀ inv : Invoice, r ≠ .created inv) → s.invoices = store.invoices) := by
  refine ⟨?_, ?_, ?_, ?_, ?_⟩
  · intro hemp
    unfold createInvoice
    rcases hbp : body.patientId with _ | pid
    · exact ⟨_, rfl⟩
    · rcases hbt : body.invoiceType with _ | ty
      · exact ⟨_, rfl⟩
      · dsimp only
        rw [if_pos hemp]
        exact ⟨_, rfl⟩
  · intro pid hbp hbt hne hnp
    unfold createInvoice
    rw [hbp]
    dsimp only
    rcases hbt2 : body.invoiceType with _ | ty
    · exact absurd hbt2 hbt
    · dsimp only
      rw [if_neg hne, if_pos hnp]
      exact ⟨_, rfl⟩
  · intro pid did hbp hbt hne hp hbd hfd
    unfold createInvoice
    rw [hbp]
    dsimp only
    rcases hbt2 : body.invoiceType with _ | ty
    · exact absurd hbt2 hbt
    · dsimp only
      rw [if_neg hne, if_neg (not_not_intro hp), if_pos (by simp [hbd, hfd])]
      exact ⟨_, rfl⟩
  · intro pid hbp hbt hne hp hdoc hnh
    unfold createInvoice
    rw [hbp]
    dsimp only
    rcases hbt2 : body.invoiceType with _ | ty
    · exact absurd hbt2 hbt
    · dsimp only
      rw [if_neg hne, if_neg (not_not_intro hp), if_neg ?hdneg, if_pos hnh]
      · exact ⟨_, rfl⟩
      case hdneg =>
        rcases hdoc with hnone | ⟨did, doc, hsome, hfind⟩
        · simp [hnone]
        · simp [hsome, hfind]
  · intro r s hrs hnc
    have h2 : s = (createInvoice store u body now).2 := by rw [hrs]
    rcases createInvoice_cases store u body now with ⟨fin, hfin, -⟩ | ⟨-, hinv, -⟩
    · exfalso
      rw [hrs] at hfin
      exact hnc fin hfin
    · rw [h2]
      exact hinv

/-- C7 witness: with the patient directory empty, the zero-item body is
answered not-found with the store unchanged; with an empty item list the
same body is answered with a validation error and the store unchanged. -/
theorem C7_create_failures_witness :
    (∃ m, createInvoice { baseStore with patients := [] } {} bodyZero {} =
      (.notFound m, { baseStore with patients := [] })) ∧
    (∃ m, createInvoice baseStore {} { bodyZero with items := [] } {} =
      (.badRequest m, baseStore)) :=
  ⟨(C7_create_failures { baseStore with patients := [] } {} bodyZero {}).2.1
      0 rfl (by decide) (by decide) (by decide),
   (C7_create_failures baseStore {} { bodyZero with items := [] } {}).1 rfl⟩

/-- C7 counterexample: with patient and hospital on file, a body whose
only item has unit price 0 — so every line amount is <= 0 — is not
rejected with a validation error: the invoice is created and persisted
with total 0. -/
theorem C7_counterexample :
    (createInvoice baseStore {} bodyZero {}).1 = .created zeroCreated ∧
    (createInvoice baseStore {} bodyZero {}).2.invoices.length = 1 ∧
    zeroCreated.items ≠ [] ∧ (∀ it ∈ zeroCreated.items, it.amount ≤ 0) := by
  have hnum : generateInvoiceNumber "INV" 0 [] ⟨2025, 1⟩ = "INV-2501-0001" := by
    decide
  simp [createInvoice, buildInvoice, commitInvoice, baseStore, bodyZero,
        zeroCreated, resolveSettings, hnum, calculateTotals, jsOr,
        saveInvoice, schemaValid, preSave, drA, apptStd]

/-- Destructured facts of a successful createInvoice call. -/
theorem createInvoice_created_dest (store : Store) (u : UserCtx)
    (body : CreateBody) (now : JsDate) (inv : Invoice)
    (h : (createInvoice store u body now).1 = .created inv) :
    (createInvoice store u body now).2.invoices = store.invoices ++ [inv] ∧
    inv.appointment = body.appointmentId ∧
    (createInvoice store u body now).2.appointments = store.appointments := by
  rcases createInvoice_cases store u body now with
    ⟨fin, hfin, hinvs, happt, hrest⟩ | ⟨hnc, -⟩
  · have hfi : fin = inv := by
      rw [hfin] at h
      exact CreateResult.created.inj h
    subst hfi
    exact ⟨hinvs, happt, hrest.2.2.2⟩
  · exact absurd h (hnc inv)

/-- C4: once a consultation-invoice generation for an appointment id has
returned a fresh creation, a second call with the same appointment id on
the resulting store performs no write (the store is returned unchanged),
answers with the conflict result carrying the first call's invoice id —
distinguishable by construction from every fresh-creation response — and
storage holds exactly one invoice referencing that appointment. -/
theorem C4_idempotent (store : Store) (u : UserCtx) (body : ConsultBody)
    (now1 now2 : JsDate) (inv : Invoice) (r1 : ConsultResult) (s1 : Store)
    (hrun : generateConsultationInvoice store u body now1 = (r1, s1))
    (h : r1 = .fresh (.created inv)) :
    generateConsultationInvoice s1 u body now2 = (.conflictExisting inv.id, s1) ∧
    (s1.invoices.filter (fun i => i.appointment = body.appointmentId)).length = 1 ∧
    (store.invoices.filter (fun i => i.appointment = body.appointmentId)).length = 0 ∧
    (∀ r : CreateResult,
      (generateConsultationInvoice s1 u body now2).1 ≠ .fresh r) := by
  unfold generateConsultationInvoice at hrun ⊢
  rcases hbid : body.appointmentId with _ | aid
  · rw [hbid] at hrun
    exact ConsultResult.noConfusion ((congrArg Prod.fst hrun).trans h)
  · rw [hbid] at hrun
    dsimp only at hrun ⊢
    rcases hfa : store.appointments.find? (fun a => a.id = aid) with _ | appt
    · rw [hfa] at hrun
      exact ConsultResult.noConfusion ((congrArg Prod.fst hrun).trans h)
    · rw [hfa] at hrun
      dsimp only at hrun
      rcases hfi : store.invoices.find? (fun i => i.appointment = some aid) with _ | ex
      · rw [hfi] at hrun
        dsimp only at hrun
        rcases hfd : (resolveSettings store u.hospitalId u.userId).2.doctors.find?
            (fun d => d.id = appt.doctor) with _ | doctor
        · rw [hfd] at hrun
          exact ConsultResult.noConfusion ((congrArg Prod.fst hrun).trans h)
        · rw [hfd] at hrun
          dsimp only at hrun
          by_cases hpat : ¬ (resolveSettings store u.hospitalId u.userId).2.patients.contains appt.patient
          · rw [if_pos hpat] at hrun
            exact ConsultResult.noConfusion ((congrArg Prod.fst hrun).trans h)
          · rw [if_neg hpat] at hrun
            obtain ⟨hr1, hs1⟩ := Prod.mk.injEq .. |>.mp hrun
            have hinner := ConsultResult.fresh.inj (hr1.trans h)
            obtain ⟨hinv_list, hinv_appt, hinv_appts⟩ :=
              createInvoice_created_dest _ _ _ _ _ hinner
            have happA :
                (resolveSettings store u.hospitalId u.userId).2.appointments =
                  store.appointments :=
              (resolveSettings_collections store u.hospitalId u.userId).2.2.2.2
            have hinvs0 :
                (resolveSettings store u.hospitalId u.userId).2.invoices =
                  store.invoices :=
              (resolveSettings_collections store u.hospitalId u.userId).1
            have hs1appts : s1.appointments = store.appointments := by
              rw [← hs1, hinv_appts, happA]
            have hs1invs : s1.invoices = store.invoices ++ [inv] := by
              rw [← hs1, hinv_list, hinvs0]
            have hp : (fun i => decide (i.appointment = some aid)) inv = true := by
              simp [hinv_appt]
            have hfind2 : (store.invoices ++ [inv]).find?
                (fun i => i.appointment = some aid) = some inv := by
              rw [List.find?_append, hfi]
              simp [List.find?_cons, hp]
            have h0 : store.invoices.filter
                (fun i => i.appointment = some aid) = [] := by
              rw [List.filter_eq_nil_iff]
              intro a ha
              simpa using List.find?_eq_none.mp hfi a ha
            rw [hs1appts, hfa, hs1invs, hfind2]
            dsimp only
            refine ⟨rfl, ?_, ?_, ?_⟩
            · rw [List.filter_append, h0]
              simp [List.filter_cons, hp]
            · rw [h0]
              rfl
            · intro r hcon
              exact ConsultResult.noConfusion hcon
      · rw [hfi] at hrun
        exact ConsultResult.noConfusion ((congrArg Prod.fst hrun).trans h)


/-- C4 witness: generating the consultation invoice for appointment 5
twice on the base store — the second call answers conflict with invoice id
0, writes nothing, and exactly one invoice references the appointment. -/
theorem C4_idempotent_witness :
    generateConsultationInvoice c4Store1 {} { appointmentId := some 5 } {} =
      (.conflictExisting 0, c4Store1) ∧
    (c4Store1.invoices.filter (fun i => i.appointment = (some 5 : Option ℕ))).length = 1 ∧
    (baseStore.invoices.filter (fun i => i.appointment = (some 5 : Option ℕ))).length = 0 ∧
    (∀ r : CreateResult,
      (generateConsultationInvoice c4Store1 {} { appointmentId := some 5 } {}).1 ≠ .fresh r) := by
  have hrun :
      generateConsultationInvoice baseStore {} { appointmentId := some 5 } {} =
        (.fresh (.created c4Inv), c4Store1) := by
    have h1 : jsIncludes "standard" "follow" = false := by decide
    have h2 : jsIncludes "standard" "specialist" = false := by decide
    have h3 : jsIncludes "standard" "emergency" = false := by decide
    have h4 : capitalize "standard" = "Standard" := by decide
    have hnum : generateInvoiceNumber "INV" 0 [] ⟨2025, 1⟩ = "INV-2501-0001" := by
      decide
    simp [generateConsultationInvoice, baseStore, apptStd, drA, resolveSettings,
          createInvoice, buildInvoice, commitInvoice, calculateTotals, jsOr,
          saveInvoice, schemaValid, preSave, localeDateString,
          h1, h2, h3, h4, hnum, c4Inv, c4Store1]
    norm_num
  exact C4_idempotent baseStore {} { appointmentId := some 5 } {} {} c4Inv
    (.fresh (.created c4Inv)) c4Store1 hrun rfl

end Billing
